import Mathlib

/-!
# Game::MassiveMessageManager

A shallow embedding of `Src/Game/MassiveMessageManager.cpp`: the session
manager that selects the host or client role, drives the single outbound
connection with its handshake, and routes packets to players through a small
set of reserved keys.

The manager's fields become a structure, every member function becomes a
function on that structure, and the calls the manager makes on its
collaborators (players, the game server, the connection, the log, the
connection signal) are recorded, in program order, as a list of `Effect`s.
Dereferencing an empty pointer and throwing are recorded as a `Fault`,
together with the state and the effects reached at that point.
-/

namespace Game

/-! ## Collaborators declared in headers that are not part of the source file -/

/-- A byte string (`std::string` used as a buffer of key material). -/
abbrev Buffer := List Nat

/-- Framework::Network::Packet: a version field, a type tag, and the values
streamed into it with `<<`, in order. -/
structure Packet where
  version : Nat
  type : Nat
  payload : List Buffer
  deriving DecidableEq, Repr

/-- The streaming operator of Packet: appends one string to the payload. -/
def Packet.shl (p : Packet) (b : Buffer) : Packet :=
  { p with payload := p.payload ++ [b] }

/-- Framework::Crypt::Cipher, holding its four constructor arguments in the
order of the constructor call. -/
structure Cipher where
  encKey : Buffer
  decKey : Buffer
  encIV : Buffer
  decIV : Buffer
  deriving DecidableEq, Repr

/-- Framework::Network::TcpConnection: the transport handle.  The manager only
holds it and calls Connect, Start and Close on it; those calls are effects. -/
inductive TcpConnection where
  | handle
  deriving DecidableEq, Repr

/-- Modelled from the spec: the class Player (Game/Player.hpp is not part of
the source).  A peer has a stable key, a connection that is present only when
it communicates over a live transport, a cipher that is present only after a
handshake, and the synchronized flag the host registry filters on. -/
structure Player where
  key : Int
  connection : Option TcpConnection
  cipher : Option Cipher
  synchronized : Bool
  deriving DecidableEq, Repr

/-- Modelled from the spec: the default `new Player(key)`: a peer with the
given key, no connection, no cipher, not synchronized. -/
def Player.new (key : Int) : Player :=
  { key := key, connection := none, cipher := none, synchronized := false }

/-- Player::GetKey. -/
def Player.GetKey (p : Player) : Int := p.key

/-- Modelled from the spec: Player::SetConnection attaches the (shared)
connection pointer, which may be empty. -/
def Player.SetConnection (p : Player) (c : Option TcpConnection) : Player :=
  { p with connection := c }

/-- Modelled from the spec: Player::SetCipher attaches the cipher. -/
def Player.SetCipher (p : Player) (c : Cipher) : Player :=
  { p with cipher := some c }

/-- Modelled from the spec: Player::OnSynchronize marks the peer synchronized. -/
def Player.OnSynchronize (p : Player) : Player :=
  { p with synchronized := true }

/-- The world object a registry-construction strategy builds. -/
abbrev GOMServer := Nat

/-- GameServer::PlayerConstructor: called as `playerConstructor(key, nullptr)`. -/
abbrev PlayerConstructor := Int → Player

/-- GameServer::GOMServerConstructor: called as `gomConstructor(nullptr)`. -/
abbrev GOMServerConstructor := Unit → GOMServer

/-- GOMDatabase, built from the server object the strategy returns. -/
structure GOMDatabase where
  server : GOMServer
  deriving DecidableEq, Repr

/-- Modelled from the spec: the class GameServer, the host registry
(GameServer.hpp and its implementation are not part of the source).  It keeps
its three constructor arguments and owns the connected remote players. -/
structure GameServer where
  port : Nat
  playerConstructor : Option PlayerConstructor
  gomConstructor : Option GOMServerConstructor
  players : List Player

/-- Modelled from the spec: `new GameServer(port, playerConstructor,
gomConstructor)`: a registry that owns no player yet. -/
def GameServer.new (port : Nat) (pc : Option PlayerConstructor)
    (gc : Option GOMServerConstructor) : GameServer :=
  { port := port, playerConstructor := pc, gomConstructor := gc, players := [] }

/-- Modelled from the spec: GameServer::GetPlayer, the lookup of a registry
member by key; none stands for the null pointer. -/
def GameServer.GetPlayer (gs : GameServer) (pKey : Int) : Option Player :=
  gs.players.find? (fun p => p.GetKey == pKey)

/-! ## Compile-time inputs -/

/-- What the translation unit takes from the preprocessor and from headers
that are not part of the source: whether `_SERVER_MODE` is defined, the four
reserved routing keys of MassiveMessageManager.hpp, and the handshake type tag
`Packet::kHandshake`. -/
structure Build where
  serverMode : Bool
  kPlayerAll : Int
  kPlayerServer : Int
  kPlayerSelf : Int
  kPlayerSynchronized : Int
  kHandshake : Nat
  deriving DecidableEq, Repr

/-- Modelled from the spec: the reserved routing keys are distinct sentinel
integers. -/
def Build.ReservedDistinct (B : Build) : Prop :=
  B.kPlayerAll ≠ B.kPlayerServer ∧ B.kPlayerAll ≠ B.kPlayerSelf ∧
  B.kPlayerAll ≠ B.kPlayerSynchronized ∧ B.kPlayerServer ≠ B.kPlayerSelf ∧
  B.kPlayerServer ≠ B.kPlayerSynchronized ∧ B.kPlayerSelf ≠ B.kPlayerSynchronized

instance (B : Build) : Decidable B.ReservedDistinct := by
  unfold Build.ReservedDistinct; infer_instance

/-- Whether a key is one of the four reserved routing keys. -/
def Build.isReserved (B : Build) (k : Int) : Bool :=
  k == B.kPlayerAll || k == B.kPlayerServer || k == B.kPlayerSelf ||
    k == B.kPlayerSynchronized

/-! ## The manager -/

/-- The data members of MassiveMessageManager.  Smart pointers are options;
`ioServicePool` is fixed at construction and only handed to new connections. -/
structure MassiveMessageManager where
  host : Bool
  gameServer : Option GameServer
  connectionPending : Bool
  connectionFailed : Bool
  port : Nat
  version : Nat
  address : String
  playerConstructor : Option PlayerConstructor
  gomConstructor : Option GOMServerConstructor
  gomDatabase : Option GOMDatabase
  localPlayer : Option Player
  connection : Option TcpConnection

/-- Which player object a call is made on: the local player, or the registry
member with the given key.  The two are never the same object. -/
inductive PlayerRef where
  | localPlayer
  | registry (key : Int)
  deriving DecidableEq, Repr

/-- The calls the manager makes on its collaborators. -/
inductive Effect where
  | ioServicePoolRun
  | playerSetConnection (c : Option TcpConnection)
  | playerSetCipher (c : Cipher)
  | playerOnSynchronize
  | playerUpdate
  | playerReceivePacket (who : PlayerRef) (p : Packet)
  | playerWrite (who : PlayerRef) (p : Packet)
  | serverUpdate
  | serverSendMessageAll (p : Packet)
  | serverSendMessageAllSynchronized (p : Packet)
  | connectionOnConnectConnect
  | connectionConnect (address : String) (port : String)
  | connectionStart
  | connectionClose
  | onConnection (connected : Bool)
  | logDebug (msg : String)
  | logFlush
  deriving DecidableEq, Repr

/-- What stops a member function before its end. -/
inductive Fault where
  | runtimeError (what : String)
  | nullLocalPlayer
  | nullConnection
  deriving DecidableEq, Repr

/-- The result of running a member function: the manager afterwards, the
effects in program order, and the returned value or the fault that stopped it. -/
structure Outcome (α : Type) where
  state : MassiveMessageManager
  effects : List Effect
  result : Except Fault α

/-- Normal return. -/
def Outcome.ok {α : Type} (s : MassiveMessageManager) (t : List Effect) (a : α) :
    Outcome α :=
  { state := s, effects := t, result := Except.ok a }

/-- Stop at a fault. -/
def Outcome.fault {α : Type} (s : MassiveMessageManager) (t : List Effect) (f : Fault) :
    Outcome α :=
  { state := s, effects := t, result := Except.error f }

namespace MassiveMessageManager

/-- The constructor.  `port` and `version` have no initializer, so their
values after construction are whatever the caller supplies here. -/
def init (port version : Nat) : MassiveMessageManager :=
  { host := false
    gameServer := none
    connectionPending := false
    connectionFailed := false
    port := port
    version := version
    address := ""
    playerConstructor := none
    gomConstructor := none
    gomDatabase := none
    localPlayer := none
    connection := none }

/-- The constructor with its body: the members are initialized and the I/O
service pool is started. -/
def construct (port version : Nat) : Outcome Unit :=
  Outcome.ok (init port version) [Effect.ioServicePoolRun] ()

/-- MassiveMessageManager::SetPort. -/
def SetPort (self : MassiveMessageManager) (pPort : Nat) : MassiveMessageManager :=
  if !self.connectionPending then
    { self with port := pPort }
  else self

/-- MassiveMessageManager::SetVersion. -/
def SetVersion (self : MassiveMessageManager) (version : Nat) : MassiveMessageManager :=
  { self with version := version }

/-- MassiveMessageManager::GetVersion. -/
def GetVersion (self : MassiveMessageManager) : Nat := self.version

/-- MassiveMessageManager::SetAddress. -/
def SetAddress (self : MassiveMessageManager) (pAddress : String) : MassiveMessageManager :=
  if !self.connectionPending then
    { self with address := pAddress }
  else self

/-- MassiveMessageManager::SetPlayerConstructor. -/
def SetPlayerConstructor (self : MassiveMessageManager) (ctor : Option PlayerConstructor) :
    MassiveMessageManager :=
  { self with playerConstructor := ctor }

/-- MassiveMessageManager::SetGOMServerConstructor. -/
def SetGOMServerConstructor (self : MassiveMessageManager)
    (ctor : Option GOMServerConstructor) : MassiveMessageManager :=
  { self with gomConstructor := ctor }

/-- The local player key of BeginMultiplayer:
`rd() % std::numeric_limits<int32_t>::max() + 1`.  The value `rd` of the random
device is an unsigned 32-bit integer, so both `int` operands are converted to
unsigned and the sum is taken modulo 2^32. -/
def localKey (rd : Nat) : Nat :=
  (rd % 2147483647 + 1) % 2 ^ 32

/-- MassiveMessageManager::Connect. -/
def Connect (self : MassiveMessageManager) (pAddress pPort : String) : Outcome Unit :=
  let s1 := { self with connectionPending := true }
  let t1 := [Effect.logDebug
    ("MassiveMessageManager : Connect to " ++ pAddress ++ " Port " ++ pPort)]
  match s1.connection with
  | none => Outcome.fault s1 t1 Fault.nullConnection
  | some _ =>
    Outcome.ok s1
      (t1 ++ [Effect.connectionOnConnectConnect, Effect.connectionConnect pAddress pPort]) ()

/-- MassiveMessageManager::BeginMultiplayer.  `rd` is the value returned by
the random device. -/
def BeginMultiplayer (B : Build) (self : MassiveMessageManager) (pHost : Bool) (rd : Nat) :
    Outcome Unit :=
  match self.gomConstructor with
  | none => Outcome.fault self [] (Fault.runtimeError "No GOM Server constructor set.")
  | some gom =>
    let s1 := { self with host := pHost }
    let s2 := { s1 with gomDatabase := some (GOMDatabase.mk (gom ())) }
    let key : Int := (localKey rd : Nat)
    let player : Player :=
      match s2.playerConstructor with
      | some ctor => ctor key
      | none => Player.new key
    let s3 := if B.serverMode then s2 else { s2 with localPlayer := some player }
    if s3.host then
      let server := GameServer.new s3.port s3.playerConstructor s3.gomConstructor
      let s4 := { s3 with gameServer := some server }
      if B.serverMode then Outcome.ok s4 [] ()
      else
        Outcome.ok { s4 with localPlayer := some player.OnSynchronize }
          [Effect.playerOnSynchronize] ()
    else
      let s4 := { s3 with connection := some TcpConnection.handle }
      Connect s4 s4.address (toString s4.port)

/-- MassiveMessageManager::Update.  What GameServer::Update and Player::Update
do to their own objects is supplied by the caller. -/
def Update (self : MassiveMessageManager) (serverUpdate : GameServer → GameServer)
    (playerUpdate : Player → Player) : Outcome Unit :=
  let s1 := { self with gameServer := self.gameServer.map serverUpdate }
  let t1 := if self.gameServer.isSome then [Effect.serverUpdate] else []
  let s2 := { s1 with localPlayer := s1.localPlayer.map playerUpdate }
  let t2 := if s1.localPlayer.isSome then [Effect.playerUpdate] else []
  Outcome.ok s2 (t1 ++ t2 ++ [Effect.logFlush]) ()

/-- MassiveMessageManager::GetLocalPlayer. -/
def GetLocalPlayer (self : MassiveMessageManager) : Option Player := self.localPlayer

/-- MassiveMessageManager::GetPlayer.  The result says which object the
returned pointer designates; none stands for the null pointer. -/
def GetPlayer (self : MassiveMessageManager) (pKey : Int) : Option PlayerRef :=
  match self.localPlayer with
  | some lp =>
    if lp.GetKey == pKey then some PlayerRef.localPlayer
    else
      match self.gameServer with
      | some gs => (gs.GetPlayer pKey).map (fun p => PlayerRef.registry p.GetKey)
      | none => none
  | none =>
    match self.gameServer with
    | some gs => (gs.GetPlayer pKey).map (fun p => PlayerRef.registry p.GetKey)
    | none => none

/-- MassiveMessageManager::Server. -/
def Server (self : MassiveMessageManager) : Bool := self.host

/-- MassiveMessageManager::OnConnect.  `RandomData i n` is the buffer returned
by the `i`-th call (counted from 0) of Framework::System::RandomData in this
invocation, which asks for `n` bytes. -/
def OnConnect (B : Build) (self : MassiveMessageManager) (pConnected : Bool)
    (RandomData : Nat → Nat → Buffer) : Outcome Unit :=
  if self.connectionPending then
    let s1 := { self with connectionPending := false }
    if pConnected then
      let s2 := { s1 with connectionFailed := false }
      match s2.localPlayer with
      | none => Outcome.fault s2 [] Fault.nullLocalPlayer
      | some lp =>
        let lp1 := lp.SetConnection s2.connection
        let decKey := RandomData 0 32
        let encKey := RandomData 1 32
        let decIV := RandomData 2 8
        let encIV := RandomData 3 8
        let packet :=
          ((((Packet.mk s2.GetVersion B.kHandshake []).shl decKey).shl encKey).shl decIV).shl
            encIV
        let cipher := Cipher.mk encKey decKey encIV decIV
        let lp2 := lp1.SetCipher cipher
        let s3 := { s2 with localPlayer := some lp2 }
        let t := [Effect.playerSetConnection s2.connection, Effect.playerSetCipher cipher,
          Effect.playerWrite PlayerRef.localPlayer packet,
          Effect.logDebug ("MassiveMessageManager : Successfully connected to " ++
            s3.address ++ ":" ++ toString s3.port)]
        match s3.connection with
        | none => Outcome.fault s3 t Fault.nullConnection
        | some _ =>
          Outcome.ok s3 (t ++ [Effect.connectionStart, Effect.onConnection (!s3.connectionFailed)])
            ()
    else
      let s2 := { s1 with connectionFailed := true }
      Outcome.ok s2
        [Effect.logDebug ("MassiveMessageManager : Connection to " ++ s2.address ++ ":" ++
            toString s2.port ++ " failed!"),
          Effect.onConnection (!s2.connectionFailed)] ()
  else Outcome.ok self [] ()

/-- The first statement of SendMessageTo after the lookup: the branch on the
resolved player, with the reserved-key fallback on the local player. -/
def sendResolved (B : Build) (self : MassiveMessageManager) (pKey : Int) (pPacket : Packet) :
    List Effect :=
  match self.GetPlayer pKey with
  | some player =>
    if !B.serverMode && player == PlayerRef.localPlayer then
      [Effect.playerReceivePacket player pPacket]
    else
      [Effect.playerWrite player pPacket]
  | none =>
    if self.localPlayer.isSome then
      if pKey == B.kPlayerServer then
        if self.Server then [Effect.playerReceivePacket PlayerRef.localPlayer pPacket]
        else [Effect.playerWrite PlayerRef.localPlayer pPacket]
      else if pKey == B.kPlayerSelf then
        [Effect.playerReceivePacket PlayerRef.localPlayer pPacket]
      else []
    else []

/-- The second statement of SendMessageTo: the broadcast keys. -/
def sendBroadcast (B : Build) (self : MassiveMessageManager) (pKey : Int) (pPacket : Packet) :
    List Effect :=
  if pKey == B.kPlayerAll then
    if self.gameServer.isSome then [Effect.serverSendMessageAll pPacket]
    else if self.localPlayer.isSome then
      [Effect.playerReceivePacket PlayerRef.localPlayer pPacket]
    else []
  else if pKey == B.kPlayerSynchronized then
    if self.gameServer.isSome then [Effect.serverSendMessageAllSynchronized pPacket]
    else []
  else []

/-- MassiveMessageManager::SendMessageTo. -/
def SendMessageTo (B : Build) (self : MassiveMessageManager) (pKey : Int) (pPacket : Packet) :
    Outcome Unit :=
  Outcome.ok self (sendResolved B self pKey pPacket ++ sendBroadcast B self pKey pPacket) ()

/-- MassiveMessageManager::SendMessageAll. -/
def SendMessageAll (B : Build) (self : MassiveMessageManager) (pPacket : Packet) :
    Outcome Unit :=
  SendMessageTo B self B.kPlayerAll pPacket

/-- MassiveMessageManager::GetGOMDatabase. -/
def GetGOMDatabase (self : MassiveMessageManager) : Option GOMDatabase :=
  match self.gomDatabase with
  | some db => some db
  | none => none

/-- MassiveMessageManager::IsConnectionPending. -/
def IsConnectionPending (self : MassiveMessageManager) : Bool := self.connectionPending

/-- MassiveMessageManager::ConnectionFailed. -/
def ConnectionFailed (self : MassiveMessageManager) : Outcome Bool :=
  if self.connectionFailed then
    Outcome.ok { self with connectionFailed := false } [] true
  else Outcome.ok self [] false

/-- MassiveMessageManager::CancelPendingConnection. -/
def CancelPendingConnection (self : MassiveMessageManager) : Outcome Unit :=
  if self.connectionPending then
    match self.connection with
    | none => Outcome.fault self [] Fault.nullConnection
    | some _ =>
      let s1 := { self with connectionFailed := false }
      let s2 := { s1 with connectionPending := false }
      Outcome.ok s2 [Effect.connectionClose] ()
  else Outcome.ok self [] ()

end MassiveMessageManager

/-! ## Deliveries -/

/-- One packet handed to one player: in process (ReceivePacket) or over the
player's outbound path (Write). -/
structure Delivery where
  who : PlayerRef
  inProcess : Bool
  packet : Packet
  deriving DecidableEq, Repr

/-- Modelled from the spec: GameServer::SendMessageAll broadcasts to every
registry member. -/
def GameServer.SendMessageAll (gs : GameServer) (p : Packet) : List Delivery :=
  gs.players.map (fun q => Delivery.mk (PlayerRef.registry q.GetKey) false p)

/-- Modelled from the spec: GameServer::SendMessageAllSynchronized broadcasts
only to the registry members flagged synchronized. -/
def GameServer.SendMessageAllSynchronized (gs : GameServer) (p : Packet) : List Delivery :=
  (gs.players.filter (fun q => q.synchronized)).map
    (fun q => Delivery.mk (PlayerRef.registry q.GetKey) false p)

/-- The deliveries one effect of the manager amounts to. -/
def Effect.deliveries (self : MassiveMessageManager) : Effect → List Delivery
  | Effect.playerReceivePacket who p => [Delivery.mk who true p]
  | Effect.playerWrite who p => [Delivery.mk who false p]
  | Effect.serverSendMessageAll p =>
    match self.gameServer with
    | some gs => gs.SendMessageAll p
    | none => []
  | Effect.serverSendMessageAllSynchronized p =>
    match self.gameServer with
    | some gs => gs.SendMessageAllSynchronized p
    | none => []
  | _ => []

/-- The deliveries of a trace of effects, in order. -/
def deliveriesOf (self : MassiveMessageManager) (t : List Effect) : List Delivery :=
  t.flatMap (Effect.deliveries self)

/-! ## Sequences of public operations -/

/-- A call of a public member function, with its arguments and with what its
collaborators answer during the call. -/
inductive Op where
  | SetPort (pPort : Nat)
  | SetVersion (version : Nat)
  | SetAddress (pAddress : String)
  | SetPlayerConstructor (ctor : Option PlayerConstructor)
  | SetGOMServerConstructor (ctor : Option GOMServerConstructor)
  | BeginMultiplayer (pHost : Bool) (rd : Nat)
  | OnConnect (pConnected : Bool) (RandomData : Nat → Nat → Buffer)
  | Update (serverUpdate : GameServer → GameServer) (playerUpdate : Player → Player)
  | SendMessageTo (pKey : Int) (pPacket : Packet)
  | SendMessageAll (pPacket : Packet)
  | ConnectionFailed
  | CancelPendingConnection

/-- Forget the type of the returned value: a returned boolean is kept, void
becomes none. -/
def Outcome.erase {α : Type} (o : Outcome α) (f : α → Option Bool) : Outcome (Option Bool) :=
  { state := o.state, effects := o.effects, result := o.result.map f }

/-- Run one public operation. -/
def step (B : Build) (s : MassiveMessageManager) : Op → Outcome (Option Bool)
  | Op.SetPort pPort => Outcome.ok (s.SetPort pPort) [] none
  | Op.SetVersion version => Outcome.ok (s.SetVersion version) [] none
  | Op.SetAddress pAddress => Outcome.ok (s.SetAddress pAddress) [] none
  | Op.SetPlayerConstructor ctor => Outcome.ok (s.SetPlayerConstructor ctor) [] none
  | Op.SetGOMServerConstructor ctor => Outcome.ok (s.SetGOMServerConstructor ctor) [] none
  | Op.BeginMultiplayer pHost rd => (s.BeginMultiplayer B pHost rd).erase (fun _ => none)
  | Op.OnConnect pConnected RandomData =>
    (s.OnConnect B pConnected RandomData).erase (fun _ => none)
  | Op.Update serverUpdate playerUpdate =>
    (s.Update serverUpdate playerUpdate).erase (fun _ => none)
  | Op.SendMessageTo pKey pPacket => (s.SendMessageTo B pKey pPacket).erase (fun _ => none)
  | Op.SendMessageAll pPacket => (s.SendMessageAll B pPacket).erase (fun _ => none)
  | Op.ConnectionFailed => s.ConnectionFailed.erase (fun b => some b)
  | Op.CancelPendingConnection => s.CancelPendingConnection.erase (fun _ => none)

/-- Run a sequence of public operations, each on the state the previous one
left; the run stops after the first operation that ends in a fault.  The
result lists the outcome of every operation that ran. -/
def runOps (B : Build) : MassiveMessageManager → List Op → List (Outcome (Option Bool))
  | _, [] => []
  | s, op :: rest =>
    match (step B s op).result with
    | Except.ok _ => step B s op :: runOps B (step B s op).state rest
    | Except.error _ => [step B s op]

/-- The operations that may follow a consumed failure in the read-once
property of the failure latch: the setters, SendMessageTo,
CancelPendingConnection, OnConnect and ConnectionFailed itself. -/
def Op.interleaved : Op → Bool
  | Op.SetPort _ => true
  | Op.SetVersion _ => true
  | Op.SetAddress _ => true
  | Op.SetPlayerConstructor _ => true
  | Op.SetGOMServerConstructor _ => true
  | Op.OnConnect _ _ => true
  | Op.SendMessageTo _ _ => true
  | Op.ConnectionFailed => true
  | Op.CancelPendingConnection => true
  | _ => false

/-- Run a sequence of public operations and return the manager it leaves; an
operation that ends in a fault stops the run at the state reached there. -/
def runState (B : Build) : MassiveMessageManager → List Op → MassiveMessageManager
  | s, [] => s
  | s, op :: rest =>
    match (step B s op).result with
    | Except.ok _ => runState B (step B s op).state rest
    | Except.error _ => (step B s op).state

/-- The states reachable from a freshly constructed manager by public
operations that return normally, where each operation must also pass the test
`allowed` in the state it is called in.  (An operation that throws leaves the
manager as it was, so it adds no state.) -/
inductive ReachableBy (B : Build) (allowed : MassiveMessageManager → Op → Bool) :
    MassiveMessageManager → Prop where
  | init (port version : Nat) : ReachableBy B allowed (MassiveMessageManager.init port version)
  | step (s : MassiveMessageManager) (op : Op) (v : Option Bool) :
      ReachableBy B allowed s → allowed s op = true →
      (step B s op).result = Except.ok v → ReachableBy B allowed (step B s op).state

/-- The states reachable from a freshly constructed manager by any sequence of
public operations. -/
def Reachable (B : Build) (s : MassiveMessageManager) : Prop :=
  ReachableBy B (fun _ _ => true) s

/-- Whether every operation of the sequence, run in turn, passes the test
`allowed` in the state it is called in and returns normally. -/
def allRun (B : Build) (allowed : MassiveMessageManager → Op → Bool) :
    MassiveMessageManager → List Op → Bool
  | _, [] => true
  | s, op :: rest =>
    allowed s op &&
      match (step B s op).result with
      | Except.ok _ => allRun B allowed (step B s op).state rest
      | Except.error _ => false

/-- The test that rules out starting a client connection attempt while the
failure latch is still set: it fails exactly for BeginMultiplayer(false) called
with connectionFailed true. -/
def latchClearAtConnect (s : MassiveMessageManager) : Op → Bool
  | Op.BeginMultiplayer false _ => !s.connectionFailed
  | _ => true

/-- The test that rules out starting a client session on a manager that still
holds a registry: it fails exactly for BeginMultiplayer(false) called with
gameServer present. -/
def noRegistryAtClientStart (s : MassiveMessageManager) : Op → Bool
  | Op.BeginMultiplayer false _ => s.gameServer.isNone
  | _ => true

/-- The effect is the ConnectionResult notification. -/
def Effect.isOnConnection : Effect → Bool
  | Effect.onConnection _ => true
  | _ => false

/-- The effect is a Write on some player. -/
def Effect.isPlayerWrite : Effect → Bool
  | Effect.playerWrite _ _ => true
  | _ => false

/-- The effect is the attachment of a cipher to the local player. -/
def Effect.isPlayerSetCipher : Effect → Bool
  | Effect.playerSetCipher _ => true
  | _ => false

/-- The effect is the start of the read loop of the connection. -/
def Effect.isConnectionStart : Effect → Bool
  | Effect.connectionStart => true
  | _ => false

/-- The effect is one of the two registry broadcasts. -/
def Effect.isBroadcast : Effect → Bool
  | Effect.serverSendMessageAll _ => true
  | Effect.serverSendMessageAllSynchronized _ => true
  | _ => false

/-- The handshake packet OnConnect builds: version and handshake tag, then
decKey, encKey, decIV, encIV, the first to fourth buffer drawn. -/
def handshakePacket (B : Build) (s : MassiveMessageManager)
    (RandomData : Nat → Nat → Buffer) : Packet :=
  ((((Packet.mk s.GetVersion B.kHandshake []).shl (RandomData 0 32)).shl
    (RandomData 1 32)).shl (RandomData 2 8)).shl (RandomData 3 8)

/-- The cipher OnConnect builds: (encKey, decKey, encIV, decIV), that is the
second, first, fourth and third buffer drawn. -/
def handshakeCipher (RandomData : Nat → Nat → Buffer) : Cipher :=
  Cipher.mk (RandomData 1 32) (RandomData 0 32) (RandomData 3 8) (RandomData 2 8)

/-! ## Sample inputs -/

/-- A build with a local player and four distinct negative reserved keys. -/
def sampleBuild : Build :=
  { serverMode := false
    kPlayerAll := -1
    kPlayerServer := -2
    kPlayerSelf := -3
    kPlayerSynchronized := -4
    kHandshake := 0 }

/-- A random source that answers every request with zero bytes of the
requested length. -/
def zeroData : Nat → Nat → Buffer := fun _ n => List.replicate n 0

/-- A freshly constructed manager. -/
def sampleIdle : MassiveMessageManager := MassiveMessageManager.init 8000 1

/-- A client whose connection attempt is in flight. -/
def samplePending : MassiveMessageManager :=
  { MassiveMessageManager.init 8000 1 with
    gomConstructor := some (fun _ => 0)
    gomDatabase := some (GOMDatabase.mk 0)
    localPlayer := some (Player.new 5)
    connection := some TcpConnection.handle
    connectionPending := true }

/-- A synchronized registry member. -/
def samplePlayerA : Player :=
  { key := 10, connection := some TcpConnection.handle, cipher := none, synchronized := true }

/-- A registry member that is not synchronized. -/
def samplePlayerB : Player :=
  { key := 11, connection := some TcpConnection.handle, cipher := none, synchronized := false }

/-- The registry of a host with the two sample members. -/
def sampleServer : GameServer :=
  { port := 8000, playerConstructor := none, gomConstructor := some (fun _ => 0),
    players := [samplePlayerA, samplePlayerB] }

/-- A host session with a local player and the sample registry. -/
def sampleHost : MassiveMessageManager :=
  { MassiveMessageManager.init 8000 1 with
    host := true
    gomConstructor := some (fun _ => 0)
    gomDatabase := some (GOMDatabase.mk 0)
    localPlayer := some (Player.new 5).OnSynchronize
    gameServer := some sampleServer }

/-- A packet of application traffic. -/
def samplePacket : Packet := { version := 1, type := 7, payload := [[1, 2, 3]] }

/-- A random source whose buffers tell the draws apart: the i-th draw of n
bytes is n copies of i. -/
def indexData : Nat → Nat → Buffer := fun i n => List.replicate n i

/-- The build of a dedicated server: no local player is compiled in. -/
def sampleServerBuild : Build := { sampleBuild with serverMode := true }

/-- A manager on which only the registry constructor has been set. -/
def sampleConfigured : MassiveMessageManager :=
  (MassiveMessageManager.init 8000 1).SetGOMServerConstructor (some (fun _ => 0))

/-- The dedicated-server build started as a client: the attempt is in flight
and there is no local player. -/
def sampleServerModeClient : MassiveMessageManager :=
  (sampleConfigured.BeginMultiplayer sampleServerBuild false 41).state

/-- The operations of a client that fails to connect and tries again without
polling ConnectionFailed in between. -/
def sampleRetryOps : List Op :=
  [Op.SetGOMServerConstructor (some (fun _ => 0)), Op.BeginMultiplayer false 41,
    Op.OnConnect false zeroData, Op.BeginMultiplayer false 42]

/-- The operations of a manager that hosts a session and then joins one as a
client. -/
def sampleHostThenClientOps : List Op :=
  [Op.SetGOMServerConstructor (some (fun _ => 0)), Op.BeginMultiplayer true 41,
    Op.BeginMultiplayer false 42]

/-- A host whose registry holds a member with the key of the local player. -/
def sampleHostSameKey : MassiveMessageManager :=
  { sampleHost with
    gameServer := some { sampleServer with players := [Player.new 5, samplePlayerB] } }

/-- The operations of a client that fails to connect, polls the failure, and
tries again. -/
def samplePolledRetryOps : List Op :=
  [Op.SetGOMServerConstructor (some (fun _ => 0)), Op.BeginMultiplayer false 41,
    Op.OnConnect false zeroData, Op.ConnectionFailed, Op.BeginMultiplayer false 42]

/-- The operations that start a client session on a fresh manager. -/
def sampleClientStartOps : List Op :=
  [Op.SetGOMServerConstructor (some (fun _ => 0)), Op.BeginMultiplayer false 41]

/-! ## Theorems -/

/-- An operation of the interleaved kind, run on a state with neither the
pending flag nor the failure latch set, ends normally, returns no `true`, and
leaves both flags clear. -/
theorem step_interleaved_idle (B : Build) (s : MassiveMessageManager) (op : Op)
    (hop : op.interleaved = true) (hp : s.connectionPending = false)
    (hf : s.connectionFailed = false) :
    (∃ v, (step B s op).result = Except.ok v ∧ v ≠ some true ∧
        (op = Op.ConnectionFailed → v = some false)) ∧
      (step B s op).state.connectionPending = false ∧
      (step B s op).state.connectionFailed = false := by
  cases op <;>
    simp_all [step, Op.interleaved, Outcome.ok, Outcome.erase, Except.map,
      MassiveMessageManager.SetPort, MassiveMessageManager.SetVersion,
      MassiveMessageManager.SetAddress, MassiveMessageManager.SetPlayerConstructor,
      MassiveMessageManager.SetGOMServerConstructor, MassiveMessageManager.OnConnect,
      MassiveMessageManager.SendMessageTo, MassiveMessageManager.ConnectionFailed,
      MassiveMessageManager.CancelPendingConnection]

/-- C1: when no connection is pending, OnConnect is a no-op for either value
of the success flag: the manager (pending flag, failure latch, local player
with its connection and cipher, and every other field) is unchanged, no effect
is emitted, and the call returns normally. -/
theorem OnConnect_not_pending_noop (B : Build) (s : MassiveMessageManager)
    (pConnected : Bool) (RandomData : Nat → Nat → Buffer)
    (hp : s.connectionPending = false) :
    (s.OnConnect B pConnected RandomData).state = s ∧
      (s.OnConnect B pConnected RandomData).effects = [] ∧
      (s.OnConnect B pConnected RandomData).result = Except.ok () := by
  simp [MassiveMessageManager.OnConnect, hp, Outcome.ok]

/-- From a state with neither flag set, a run of interleaved operations
executes every operation, and every ConnectionFailed in it returns false. -/
theorem runOps_interleaved_idle (B : Build) (ops : List Op) :
    ∀ s : MassiveMessageManager, (∀ op ∈ ops, op.interleaved = true) →
      s.connectionPending = false → s.connectionFailed = false →
      (runOps B s ops).length = ops.length ∧
        ∀ x ∈ ops.zip (runOps B s ops), x.1 = Op.ConnectionFailed →
          x.2.result = Except.ok (some false) := by
  induction ops with
  | nil => intro s _ _ _; simp [runOps]
  | cons op rest ih =>
    intro s hops hp hf
    have hop : op.interleaved = true := hops op (List.mem_cons_self _ _)
    obtain ⟨⟨v, hv, _, hcf⟩, hp1, hf1⟩ := step_interleaved_idle B s op hop hp hf
    have hrest := ih (step B s op).state
      (fun o ho => hops o (List.mem_cons_of_mem _ ho)) hp1 hf1
    have hrun : runOps B s (op :: rest) =
        step B s op :: runOps B (step B s op).state rest := by
      simp [runOps, hv]
    rw [hrun]
    refine ⟨by simp [hrest.1], ?_⟩
    intro x hx hxop
    rw [List.zip_cons_cons, List.mem_cons] at hx
    rcases hx with hx | hx
    · subst hx
      simp only at hxop
      simp only
      rw [hv, hcf hxop]
    · exact hrest.2 x hx hxop

/-- C2: the failure latch is read-once.  Right after a pending attempt
completes with OnConnect(false), ConnectionFailed returns true; after that, in
any sequence of setters, SendMessageTo, CancelPendingConnection, OnConnect and
ConnectionFailed calls, every call runs to its end and every ConnectionFailed
returns false. -/
theorem ConnectionFailed_read_once (B : Build) (s : MassiveMessageManager)
    (RandomData : Nat → Nat → Buffer) (ops : List Op)
    (hp : s.connectionPending = true) (hops : ∀ op ∈ ops, op.interleaved = true) :
    (s.OnConnect B false RandomData).result = Except.ok () ∧
      (s.OnConnect B false RandomData).state.ConnectionFailed.result = Except.ok true ∧
      (runOps B (s.OnConnect B false RandomData).state.ConnectionFailed.state ops).length =
        ops.length ∧
      ∀ x ∈ ops.zip (runOps B (s.OnConnect B false RandomData).state.ConnectionFailed.state ops),
        x.1 = Op.ConnectionFailed → x.2.result = Except.ok (some false) := by
  have h1 : (s.OnConnect B false RandomData).result = Except.ok () := by
    simp [MassiveMessageManager.OnConnect, hp, Outcome.ok]
  have h2 : (s.OnConnect B false RandomData).state.ConnectionFailed.result = Except.ok true := by
    simp [MassiveMessageManager.OnConnect, MassiveMessageManager.ConnectionFailed, hp,
      Outcome.ok]
  have h3 : (s.OnConnect B false RandomData).state.ConnectionFailed.state.connectionPending
      = false := by
    simp [MassiveMessageManager.OnConnect, MassiveMessageManager.ConnectionFailed, hp,
      Outcome.ok]
  have h4 : (s.OnConnect B false RandomData).state.ConnectionFailed.state.connectionFailed
      = false := by
    simp [MassiveMessageManager.OnConnect, MassiveMessageManager.ConnectionFailed, hp,
      Outcome.ok]
  exact ⟨h1, h2, runOps_interleaved_idle B ops _ hops h3 h4⟩

/-- Witness of C1: a freshly constructed manager has no pending connection,
and OnConnect(true) leaves it as it is. -/
theorem OnConnect_not_pending_noop_witness :
    sampleIdle.connectionPending = false ∧
      (sampleIdle.OnConnect sampleBuild true zeroData).state = sampleIdle ∧
      (sampleIdle.OnConnect sampleBuild true zeroData).effects = [] ∧
      (sampleIdle.OnConnect sampleBuild true zeroData).result = Except.ok () :=
  ⟨rfl, OnConnect_not_pending_noop sampleBuild sampleIdle true zeroData rfl⟩

/-- Witness of C2: after a failed attempt on the sample client, the first poll
returns true and the two later polls, with a setter, a spurious OnConnect, a
send and a cancellation in between, return false. -/
theorem ConnectionFailed_read_once_witness :
    (samplePending.OnConnect sampleBuild false zeroData).state.ConnectionFailed.result =
        Except.ok true ∧
      ∀ x ∈ [Op.ConnectionFailed, Op.SetPort 9000, Op.OnConnect false zeroData,
            Op.SendMessageTo 5 samplePacket, Op.CancelPendingConnection,
            Op.ConnectionFailed].zip
          (runOps sampleBuild
            (samplePending.OnConnect sampleBuild false zeroData).state.ConnectionFailed.state
            [Op.ConnectionFailed, Op.SetPort 9000, Op.OnConnect false zeroData,
              Op.SendMessageTo 5 samplePacket, Op.CancelPendingConnection,
              Op.ConnectionFailed]),
        x.1 = Op.ConnectionFailed → x.2.result = Except.ok (some false) :=
  ⟨(ConnectionFailed_read_once sampleBuild samplePending zeroData
      [Op.ConnectionFailed, Op.SetPort 9000, Op.OnConnect false zeroData,
        Op.SendMessageTo 5 samplePacket, Op.CancelPendingConnection, Op.ConnectionFailed]
      rfl (by simp [Op.interleaved])).2.1,
    (ConnectionFailed_read_once sampleBuild samplePending zeroData
      [Op.ConnectionFailed, Op.SetPort 9000, Op.OnConnect false zeroData,
        Op.SendMessageTo 5 samplePacket, Op.CancelPendingConnection, Op.ConnectionFailed]
      rfl (by simp [Op.interleaved])).2.2.2⟩

/-- The registry lookup finds nothing for a key no member carries. -/
theorem GameServer.GetPlayer_none_of_no_key (gs : GameServer) (k : Int)
    (h : ∀ p ∈ gs.players, p.key ≠ k) : gs.GetPlayer k = none := by
  simp only [GameServer.GetPlayer, List.find?_eq_none, Player.GetKey]
  intro p hp
  simpa using h p hp

/-- GetPlayer resolves to no player for a key that is neither the local
player's nor a registry member's. -/
theorem MassiveMessageManager.GetPlayer_unresolved (s : MassiveMessageManager) (k : Int)
    (hl : ∀ lp, s.localPlayer = some lp → lp.key ≠ k)
    (hr : ∀ gs, s.gameServer = some gs → ∀ p ∈ gs.players, p.key ≠ k) :
    s.GetPlayer k = none := by
  unfold MassiveMessageManager.GetPlayer
  cases hlp : s.localPlayer with
  | none =>
    cases hgs : s.gameServer with
    | none => rfl
    | some gs => simp [GameServer.GetPlayer_none_of_no_key gs k (hr gs hgs)]
  | some lp =>
    have hk : lp.key ≠ k := hl lp hlp
    cases hgs : s.gameServer with
    | none => simp [Player.GetKey, hk]
    | some gs => simp [Player.GetKey, hk, GameServer.GetPlayer_none_of_no_key gs k (hr gs hgs)]

/-- A key that is not reserved differs from each of the four reserved keys. -/
theorem Build.ne_of_isReserved_false (B : Build) (k : Int) (h : B.isReserved k = false) :
    k ≠ B.kPlayerAll ∧ k ≠ B.kPlayerServer ∧ k ≠ B.kPlayerSelf ∧
      k ≠ B.kPlayerSynchronized := by
  simpa [Build.isReserved, and_assoc] using h

/-- C3: on a host whose registry holds A (synchronized) and B (not
synchronized), with distinct reserved keys that no player carries,
SendMessageTo(kPlayerSynchronized, m) makes exactly one call, the registry's
synchronized-only broadcast, which delivers m to A alone; and
SendMessageTo(kPlayerAll, m) makes exactly one call, the registry's all-players
broadcast, which delivers m to A and to B. -/
theorem SendMessageTo_host_broadcasts (B : Build) (s : MassiveMessageManager)
    (gs : GameServer) (pA pB : Player) (m : Packet)
    (hd : B.ReservedDistinct) (hhost : s.host = true) (hgs : s.gameServer = some gs)
    (hpl : gs.players = [pA, pB]) (hA : pA.synchronized = true)
    (hB : pB.synchronized = false) (hAB : pA.key ≠ pB.key)
    (hkA : B.isReserved pA.key = false) (hkB : B.isReserved pB.key = false)
    (hkl : ∀ lp, s.localPlayer = some lp → B.isReserved lp.key = false) :
    s.Server = true ∧
      (s.SendMessageTo B B.kPlayerSynchronized m).effects =
        [Effect.serverSendMessageAllSynchronized m] ∧
      deliveriesOf s (s.SendMessageTo B B.kPlayerSynchronized m).effects =
        [Delivery.mk (PlayerRef.registry pA.key) false m] ∧
      Delivery.mk (PlayerRef.registry pB.key) false m ∉
        deliveriesOf s (s.SendMessageTo B B.kPlayerSynchronized m).effects ∧
      (s.SendMessageTo B B.kPlayerAll m).effects = [Effect.serverSendMessageAll m] ∧
      deliveriesOf s (s.SendMessageTo B B.kPlayerAll m).effects =
        [Delivery.mk (PlayerRef.registry pA.key) false m,
          Delivery.mk (PlayerRef.registry pB.key) false m] := by
  obtain ⟨hAS, hAV, hAY, _, hSY, hVY⟩ := hd
  have hnA := B.ne_of_isReserved_false pA.key hkA
  have hnB := B.ne_of_isReserved_false pB.key hkB
  have hsync : s.GetPlayer B.kPlayerSynchronized = none := by
    apply MassiveMessageManager.GetPlayer_unresolved
    · intro lp hlp
      exact (B.ne_of_isReserved_false lp.key (hkl lp hlp)).2.2.2
    · intro g hg p hp
      have hgg : g = gs := by rw [hgs] at hg; exact (Option.some.inj hg).symm
      subst hgg
      rw [hpl] at hp
      simp only [List.mem_cons, List.mem_singleton, List.not_mem_nil, or_false] at hp
      rcases hp with rfl | rfl
      · exact hnA.2.2.2
      · exact hnB.2.2.2
  have hall : s.GetPlayer B.kPlayerAll = none := by
    apply MassiveMessageManager.GetPlayer_unresolved
    · intro lp hlp
      exact (B.ne_of_isReserved_false lp.key (hkl lp hlp)).1
    · intro g hg p hp
      have hgg : g = gs := by rw [hgs] at hg; exact (Option.some.inj hg).symm
      subst hgg
      rw [hpl] at hp
      simp only [List.mem_cons, List.mem_singleton, List.not_mem_nil, or_false] at hp
      rcases hp with rfl | rfl
      · exact hnA.1
      · exact hnB.1
  have e1 : (s.SendMessageTo B B.kPlayerSynchronized m).effects =
      [Effect.serverSendMessageAllSynchronized m] := by
    simp [MassiveMessageManager.SendMessageTo, MassiveMessageManager.sendResolved,
      MassiveMessageManager.sendBroadcast, Outcome.ok, hsync, hgs,
      Ne.symm hAY, Ne.symm hSY, Ne.symm hVY]
  have e2 : (s.SendMessageTo B B.kPlayerAll m).effects = [Effect.serverSendMessageAll m] := by
    simp [MassiveMessageManager.SendMessageTo, MassiveMessageManager.sendResolved,
      MassiveMessageManager.sendBroadcast, Outcome.ok, hall, hgs, hAS, hAV]
  refine ⟨hhost, e1, ?_, ?_, e2, ?_⟩
  · rw [e1]
    simp [deliveriesOf, Effect.deliveries, hgs, GameServer.SendMessageAllSynchronized, hpl,
      hA, hB, Player.GetKey]
  · rw [e1]
    simp [deliveriesOf, Effect.deliveries, hgs, GameServer.SendMessageAllSynchronized, hpl,
      hA, hB, Player.GetKey, Ne.symm hAB]
  · rw [e2]
    simp [deliveriesOf, Effect.deliveries, hgs, GameServer.SendMessageAll, hpl, Player.GetKey]

/-- Witness of C3: on the sample host, a packet for kPlayerSynchronized
reaches member 10 only, and a packet for kPlayerAll reaches members 10 and 11. -/
theorem SendMessageTo_host_broadcasts_witness :
    sampleBuild.ReservedDistinct ∧ sampleHost.gameServer = some sampleServer ∧
      deliveriesOf sampleHost
          (sampleHost.SendMessageTo sampleBuild sampleBuild.kPlayerSynchronized
            samplePacket).effects =
        [Delivery.mk (PlayerRef.registry 10) false samplePacket] ∧
      deliveriesOf sampleHost
          (sampleHost.SendMessageTo sampleBuild sampleBuild.kPlayerAll samplePacket).effects =
        [Delivery.mk (PlayerRef.registry 10) false samplePacket,
          Delivery.mk (PlayerRef.registry 11) false samplePacket] :=
  have h := SendMessageTo_host_broadcasts sampleBuild sampleHost sampleServer samplePlayerA
    samplePlayerB samplePacket (by decide) rfl rfl rfl rfl rfl (by decide) rfl rfl
    (by intro lp hlp; injection hlp with hlp; subst hlp; rfl)
  ⟨by decide, rfl, h.2.2.1, h.2.2.2.2.2⟩

/-- C4: with a local player present and kPlayerServer resolving to no player,
SendMessageTo(kPlayerServer, m) makes exactly one call and so one delivery:
Write on the local player when the manager is a client, ReceivePacket on the
local player when it is the host. -/
theorem SendMessageTo_kPlayerServer (B : Build) (s : MassiveMessageManager) (lp : Player)
    (m : Packet) (hd : B.ReservedDistinct) (hlp : s.localPlayer = some lp)
    (hl : lp.key ≠ B.kPlayerServer)
    (hr : ∀ gs, s.gameServer = some gs → ∀ p ∈ gs.players, p.key ≠ B.kPlayerServer) :
    (s.host = false →
        (s.SendMessageTo B B.kPlayerServer m).effects =
          [Effect.playerWrite PlayerRef.localPlayer m]) ∧
      (s.host = true →
        (s.SendMessageTo B B.kPlayerServer m).effects =
          [Effect.playerReceivePacket PlayerRef.localPlayer m]) ∧
      deliveriesOf s (s.SendMessageTo B B.kPlayerServer m).effects =
        [Delivery.mk PlayerRef.localPlayer s.host m] ∧
      (s.SendMessageTo B B.kPlayerServer m).state = s ∧
      (s.SendMessageTo B B.kPlayerServer m).result = Except.ok () := by
  obtain ⟨hAS, _, _, _, hSY, _⟩ := hd
  have hnone : s.GetPlayer B.kPlayerServer = none := by
    apply MassiveMessageManager.GetPlayer_unresolved _ _ _ hr
    intro q hq
    rw [hlp] at hq
    cases hq
    exact hl
  cases hh : s.host <;>
    simp [MassiveMessageManager.SendMessageTo, MassiveMessageManager.sendResolved,
      MassiveMessageManager.sendBroadcast, MassiveMessageManager.Server, Outcome.ok, hnone,
      hlp, hh, Ne.symm hAS, hSY, deliveriesOf, Effect.deliveries]

/-- Witness of C4: the sample client writes a packet for kPlayerServer on its
local player. -/
theorem SendMessageTo_kPlayerServer_witness :
    samplePending.host = false ∧
      (samplePending.SendMessageTo sampleBuild sampleBuild.kPlayerServer samplePacket).effects =
        [Effect.playerWrite PlayerRef.localPlayer samplePacket] :=
  ⟨rfl, (SendMessageTo_kPlayerServer sampleBuild samplePending (Player.new 5) samplePacket
    (by decide) rfl (by decide)
    (by intro gs hgs; exact absurd hgs (by simp [samplePending, MassiveMessageManager.init]))).1
    rfl⟩

/-- C5: a packet addressed to a key that is neither the local player's, nor a
registry member's, nor reserved, is dropped: no call is made on any
collaborator, so nothing is delivered, the manager is unchanged and the call
returns normally. -/
theorem SendMessageTo_unknown_key (B : Build) (s : MassiveMessageManager) (k : Int)
    (m : Packet) (hl : ∀ lp, s.localPlayer = some lp → lp.key ≠ k)
    (hr : ∀ gs, s.gameServer = some gs → ∀ p ∈ gs.players, p.key ≠ k)
    (hk : B.isReserved k = false) :
    (s.SendMessageTo B k m).effects = [] ∧
      deliveriesOf s (s.SendMessageTo B k m).effects = [] ∧
      (s.SendMessageTo B k m).state = s ∧
      (s.SendMessageTo B k m).result = Except.ok () := by
  obtain ⟨hkA, hkS, hkV, hkY⟩ := B.ne_of_isReserved_false k hk
  have hnone : s.GetPlayer k = none := MassiveMessageManager.GetPlayer_unresolved s k hl hr
  simp [MassiveMessageManager.SendMessageTo, MassiveMessageManager.sendResolved,
    MassiveMessageManager.sendBroadcast, Outcome.ok, hnone, hkA, hkS, hkV, hkY, deliveriesOf]

/-- Witness of C5: on the sample host, whose players carry the keys 5, 10 and
11, a packet for key 12 is dropped. -/
theorem SendMessageTo_unknown_key_witness :
    sampleBuild.isReserved 12 = false ∧
      (sampleHost.SendMessageTo sampleBuild 12 samplePacket).effects = [] ∧
      (sampleHost.SendMessageTo sampleBuild 12 samplePacket).state = sampleHost :=
  have h := SendMessageTo_unknown_key sampleBuild sampleHost 12 samplePacket
    (by intro lp hlp; injection hlp with hlp; subst hlp; decide)
    (by
      intro gs hgs p hp
      injection hgs with hgs
      subst hgs
      simp only [sampleServer, List.mem_cons, List.mem_singleton, List.not_mem_nil,
        or_false] at hp
      rcases hp with rfl | rfl <;> decide)
    rfl
  ⟨rfl, h.1, h.2.2.1⟩

/-- C6: when no connection is pending, CancelPendingConnection is a no-op:
every field of the manager, the failure latch included, is unchanged, no call
is made on the connection (present or absent), and the call returns normally. -/
theorem CancelPendingConnection_not_pending_noop (s : MassiveMessageManager)
    (hp : s.connectionPending = false) :
    s.CancelPendingConnection.state = s ∧ s.CancelPendingConnection.effects = [] ∧
      s.CancelPendingConnection.result = Except.ok () := by
  simp [MassiveMessageManager.CancelPendingConnection, hp, Outcome.ok]

/-- Witness of C6: a freshly constructed manager, which has no connection
object, is left as it is and makes no call. -/
theorem CancelPendingConnection_not_pending_noop_witness :
    sampleIdle.connection = none ∧ sampleIdle.CancelPendingConnection.state = sampleIdle ∧
      sampleIdle.CancelPendingConnection.effects = [] ∧
      sampleIdle.CancelPendingConnection.result = Except.ok () :=
  ⟨rfl, CancelPendingConnection_not_pending_noop sampleIdle rfl⟩

/-- C7: while a connection is pending, SetPort and SetAddress leave the stored
port and address, and every other field, unchanged; while none is pending they
store exactly their argument and change nothing else. -/
theorem SetPort_SetAddress_guard (s : MassiveMessageManager) (p : Nat) (a : String) :
    (s.connectionPending = true → s.SetPort p = s ∧ s.SetAddress a = s) ∧
      (s.connectionPending = false →
        s.SetPort p = { s with port := p } ∧ s.SetAddress a = { s with address := a }) := by
  constructor <;> intro hp <;>
    simp [MassiveMessageManager.SetPort, MassiveMessageManager.SetAddress, hp]

/-- Witness of C7: the sample client with an attempt in flight keeps port 8000
and its empty address; the freshly constructed manager stores port 9000. -/
theorem SetPort_SetAddress_guard_witness :
    (samplePending.connectionPending = true ∧ (samplePending.SetPort 9000).port = 8000 ∧
        (samplePending.SetAddress "example.org").address = "") ∧
      (sampleIdle.connectionPending = false ∧ (sampleIdle.SetPort 9000).port = 9000 ∧
        (sampleIdle.SetAddress "example.org").address = "example.org") :=
  ⟨⟨rfl,
      congrArg MassiveMessageManager.port
        ((SetPort_SetAddress_guard samplePending 9000 "example.org").1 rfl).1,
      congrArg MassiveMessageManager.address
        ((SetPort_SetAddress_guard samplePending 9000 "example.org").1 rfl).2⟩,
    ⟨rfl,
      congrArg MassiveMessageManager.port
        ((SetPort_SetAddress_guard sampleIdle 9000 "example.org").2 rfl).1,
      congrArg MassiveMessageManager.address
        ((SetPort_SetAddress_guard sampleIdle 9000 "example.org").2 rfl).2⟩⟩

/-- C8, as stated, fails: on the sample client with an attempt in flight,
SetVersion changes the stored version, SetPlayerConstructor changes the stored
player constructor and SetGOMServerConstructor changes the stored registry
constructor. -/
theorem setters_while_pending_counterexample :
    samplePending.connectionPending = true ∧
      (samplePending.SetVersion 2).version ≠ samplePending.version ∧
      (samplePending.SetPlayerConstructor (some Player.new)).playerConstructor ≠
        samplePending.playerConstructor ∧
      (samplePending.SetGOMServerConstructor none).gomConstructor ≠
        samplePending.gomConstructor := by
  refine ⟨rfl, by decide, ?_, ?_⟩
  · simp [MassiveMessageManager.SetPlayerConstructor, samplePending,
      MassiveMessageManager.init]
  · simp [MassiveMessageManager.SetGOMServerConstructor, samplePending,
      MassiveMessageManager.init]

/-- C8, amended: while a connection is pending only the port and the address
are protected.  SetPort and SetAddress leave the manager unchanged, whereas
SetVersion, SetPlayerConstructor and SetGOMServerConstructor store their
argument as the new version, player constructor and registry constructor, and
change no other field. -/
theorem setters_while_pending (s : MassiveMessageManager) (p v : Nat) (a : String)
    (pc : Option PlayerConstructor) (gc : Option GOMServerConstructor)
    (hp : s.connectionPending = true) :
    s.SetPort p = s ∧ s.SetAddress a = s ∧
      s.SetVersion v = { s with version := v } ∧
      s.SetPlayerConstructor pc = { s with playerConstructor := pc } ∧
      s.SetGOMServerConstructor gc = { s with gomConstructor := gc } := by
  simp [MassiveMessageManager.SetPort, MassiveMessageManager.SetAddress,
    MassiveMessageManager.SetVersion, MassiveMessageManager.SetPlayerConstructor,
    MassiveMessageManager.SetGOMServerConstructor, hp]

/-- Witness of C8 as amended: on the sample client with an attempt in flight,
SetPort(9000) changes nothing and SetVersion(2) stores version 2. -/
theorem setters_while_pending_witness :
    samplePending.connectionPending = true ∧ samplePending.SetPort 9000 = samplePending ∧
      (samplePending.SetVersion 2).version = 2 :=
  ⟨rfl, (setters_while_pending samplePending 9000 2 "example.org" none none rfl).1,
    congrArg MassiveMessageManager.version
      (setters_while_pending samplePending 9000 2 "example.org" none none rfl).2.2.1⟩

/-- C9: BeginMultiplayer throws the runtime error "No GOM Server constructor
set." exactly when no registry constructor is set, and returns normally exactly
when one is set, for either role; when it throws, the manager is the one before
the call and no call has been made on any collaborator, so no connection
attempt is started. -/
theorem BeginMultiplayer_configuration_error (B : Build) (s : MassiveMessageManager)
    (pHost : Bool) (rd : Nat) :
    ((s.BeginMultiplayer B pHost rd).result =
          Except.error (Fault.runtimeError "No GOM Server constructor set.") ↔
        s.gomConstructor = none) ∧
      ((s.BeginMultiplayer B pHost rd).result = Except.ok () ↔ s.gomConstructor ≠ none) ∧
      (s.gomConstructor = none →
        (s.BeginMultiplayer B pHost rd).state = s ∧
          (s.BeginMultiplayer B pHost rd).effects = []) := by
  cases hg : s.gomConstructor with
  | none => simp [MassiveMessageManager.BeginMultiplayer, hg, Outcome.fault]
  | some gom =>
    cases pHost <;> cases hm : B.serverMode <;>
      simp [MassiveMessageManager.BeginMultiplayer, MassiveMessageManager.Connect, hg, hm,
        Outcome.ok]

/-- Witness of C9: a freshly constructed manager has no registry constructor;
BeginMultiplayer(false) throws and leaves it as it is, with no connection
pending. -/
theorem BeginMultiplayer_configuration_error_witness :
    sampleIdle.gomConstructor = none ∧
      (sampleIdle.BeginMultiplayer sampleBuild false 41).state = sampleIdle ∧
      (sampleIdle.BeginMultiplayer sampleBuild false 41).effects = [] :=
  ⟨rfl, (BeginMultiplayer_configuration_error sampleBuild sampleIdle false 41).2.2 rfl⟩

/-- The local player key does not wrap around in unsigned 32-bit arithmetic and
lies between 1 and INT32_MAX = 2147483647 inclusive. -/
theorem localKey_bounds (rd : Nat) :
    MassiveMessageManager.localKey rd = rd % 2147483647 + 1 ∧
      1 ≤ MassiveMessageManager.localKey rd ∧
      MassiveMessageManager.localKey rd ≤ 2147483647 := by
  have hlt := Nat.mod_lt rd (show 0 < 2147483647 by norm_num)
  have h : MassiveMessageManager.localKey rd = rd % 2147483647 + 1 := by
    unfold MassiveMessageManager.localKey
    apply Nat.mod_eq_of_lt
    norm_num
    omega
  exact ⟨h, by omega, by omega⟩

/-- C10: for every value rd of the random device (an unsigned 32-bit
integer), in the build with a local player and with a registry constructor
set, BeginMultiplayer computes the key `rd % INT32_MAX + 1` in unsigned 32-bit
arithmetic without wrapping around, the key lies between 1 and
INT32_MAX = 2147483647 inclusive (so it is neither 0 nor negative and fits a
signed 32-bit integer), and this key is what the local player is built from:
the default player carries it, a configured player constructor is called with
it, in either role. -/
theorem BeginMultiplayer_localKey_range (B : Build) (s : MassiveMessageManager)
    (pHost : Bool) (rd : Nat) (gom : GOMServerConstructor)
    (hb : B.serverMode = false) (hg : s.gomConstructor = some gom) :
    (rd % 2147483647 + 1) % 2 ^ 32 = rd % 2147483647 + 1 ∧
      (1 : Int) ≤ ((rd % 2147483647 + 1 : Nat) : Int) ∧
      ((rd % 2147483647 + 1 : Nat) : Int) ≤ 2147483647 ∧
      (s.playerConstructor = none →
        (s.BeginMultiplayer B pHost rd).state.localPlayer =
          some (if pHost then (Player.new ((rd % 2147483647 + 1 : Nat) : Int)).OnSynchronize
            else Player.new ((rd % 2147483647 + 1 : Nat) : Int))) ∧
      (∀ ctor, s.playerConstructor = some ctor →
        (s.BeginMultiplayer B pHost rd).state.localPlayer =
          some (if pHost then (ctor ((rd % 2147483647 + 1 : Nat) : Int)).OnSynchronize
            else ctor ((rd % 2147483647 + 1 : Nat) : Int))) ∧
      (s.playerConstructor = none →
        ∃ p, (s.BeginMultiplayer B pHost rd).state.localPlayer = some p ∧
          1 ≤ p.key ∧ p.key ≤ 2147483647) := by
  obtain ⟨hkey, hlo, hhi⟩ := localKey_bounds rd
  have hwrap : (rd % 2147483647 + 1) % 2 ^ 32 = rd % 2147483647 + 1 := by
    have := hkey
    unfold MassiveMessageManager.localKey at this
    exact this
  have hloI : (1 : Int) ≤ ((rd % 2147483647 + 1 : Nat) : Int) := by
    rw [← hkey]; exact_mod_cast hlo
  have hhiI : ((rd % 2147483647 + 1 : Nat) : Int) ≤ 2147483647 := by
    rw [← hkey]; exact_mod_cast hhi
  have hdef : s.playerConstructor = none →
      (s.BeginMultiplayer B pHost rd).state.localPlayer =
        some (if pHost then (Player.new ((rd % 2147483647 + 1 : Nat) : Int)).OnSynchronize
          else Player.new ((rd % 2147483647 + 1 : Nat) : Int)) := by
    intro hc
    cases pHost <;>
      simp [MassiveMessageManager.BeginMultiplayer, MassiveMessageManager.Connect, hg, hb, hc,
        Outcome.ok, hkey]
  refine ⟨hwrap, hloI, hhiI, hdef, ?_, ?_⟩
  · intro ctor hc
    cases pHost <;>
      simp [MassiveMessageManager.BeginMultiplayer, MassiveMessageManager.Connect, hg, hb, hc,
        Outcome.ok, hkey]
  · intro hc
    rw [hdef hc]
    cases pHost
    · exact ⟨_, rfl, hloI, hhiI⟩
    · exact ⟨_, rfl, hloI, hhiI⟩

/-- Witness of C10: with the largest value of the random device, 2^32 - 1,
BeginMultiplayer(false) on the configured sample manager creates the default
local player with key 2. -/
theorem BeginMultiplayer_localKey_range_witness :
    sampleBuild.serverMode = false ∧
      (sampleConfigured.BeginMultiplayer sampleBuild false 4294967295).state.localPlayer =
        some (Player.new 2) := by
  have h := (BeginMultiplayer_localKey_range sampleBuild sampleConfigured false 4294967295
    (fun _ => 0) rfl rfl).2.2.2.1 rfl
  refine ⟨rfl, ?_⟩
  rw [h]
  norm_num

/-- The key at the ends of the range of the random device and at the two
values around the modulus. -/
theorem localKey_values :
    MassiveMessageManager.localKey 0 = 1 ∧
      MassiveMessageManager.localKey 2147483646 = 2147483647 ∧
      MassiveMessageManager.localKey 2147483647 = 1 ∧
      MassiveMessageManager.localKey 4294967295 = 2 := by
  simp [MassiveMessageManager.localKey]

/-- C11: when a pending connection completes with OnConnect(true) on a manager
with a local player, and the random source returns buffers of the requested
length, the one packet written is tagged with the current version and the
handshake type and carries, in this order, the first (decKey, 32 bytes), second
(encKey, 32 bytes), third (decIV, 8 bytes) and fourth (encIV, 8 bytes) buffer
drawn; the one cipher attached to the local player is built from the same
buffers in the order (encKey, decKey, encIV, decIV). -/
theorem OnConnect_handshake_layout (B : Build) (s : MassiveMessageManager) (lp : Player)
    (RandomData : Nat → Nat → Buffer) (hp : s.connectionPending = true)
    (hlp : s.localPlayer = some lp) (hlen : ∀ i n, (RandomData i n).length = n) :
    (s.OnConnect B true RandomData).effects.filter Effect.isPlayerWrite =
        [Effect.playerWrite PlayerRef.localPlayer
          { version := s.version, type := B.kHandshake,
            payload := [RandomData 0 32, RandomData 1 32, RandomData 2 8, RandomData 3 8] }] ∧
      [RandomData 0 32, RandomData 1 32, RandomData 2 8, RandomData 3 8].map List.length =
        [32, 32, 8, 8] ∧
      (s.OnConnect B true RandomData).effects.filter Effect.isPlayerSetCipher =
        [Effect.playerSetCipher
          { encKey := RandomData 1 32, decKey := RandomData 0 32,
            encIV := RandomData 3 8, decIV := RandomData 2 8 }] ∧
      (s.OnConnect B true RandomData).state.localPlayer =
        some { lp with
          connection := s.connection
          cipher := some { encKey := RandomData 1 32, decKey := RandomData 0 32,
                           encIV := RandomData 3 8, decIV := RandomData 2 8 } } := by
  refine ⟨?_, by simp [hlen], ?_, ?_⟩ <;>
    cases hc : s.connection <;>
    simp [MassiveMessageManager.OnConnect, MassiveMessageManager.GetVersion, hp, hlp, hc,
      Outcome.ok, Outcome.fault, Packet.shl, Player.SetConnection, Player.SetCipher,
      Effect.isPlayerWrite, Effect.isPlayerSetCipher, List.filter]

/-- Witness of C11: on the sample client, with the random source that fills
the i-th buffer with the byte i, the handshake payload is 32 zeros, 32 ones,
8 twos, 8 threes. -/
theorem OnConnect_handshake_layout_witness :
    samplePending.connectionPending = true ∧
      (samplePending.OnConnect sampleBuild true indexData).effects.filter
          Effect.isPlayerWrite =
        [Effect.playerWrite PlayerRef.localPlayer
          { version := 1, type := 0,
            payload := [List.replicate 32 0, List.replicate 32 1, List.replicate 8 2,
              List.replicate 8 3] }] :=
  ⟨rfl, (OnConnect_handshake_layout sampleBuild samplePending (Player.new 5) indexData rfl rfl
    (by intro i n; simp [indexData])).1⟩

/-- C12 on the code: the dedicated-server build started as a client is
reachable by public operations and has a connection pending, yet OnConnect(true)
stops at the dereference of the absent local player: it does not return
normally and raises no ConnectionResult notification. -/
theorem OnConnect_serverMode_client_faults :
    Reachable sampleServerBuild sampleServerModeClient ∧
      sampleServerModeClient.connectionPending = true ∧
      sampleServerModeClient.localPlayer = none ∧
      (sampleServerModeClient.OnConnect sampleServerBuild true zeroData).effects.filter
          Effect.isOnConnection = [] ∧
      (sampleServerModeClient.OnConnect sampleServerBuild true zeroData).result =
        Except.error Fault.nullLocalPlayer := by
  refine ⟨?_, rfl, rfl, rfl, rfl⟩
  exact ReachableBy.step sampleConfigured (Op.BeginMultiplayer false 41) none
    (ReachableBy.step (MassiveMessageManager.init 8000 1)
      (Op.SetGOMServerConstructor (some (fun _ => 0))) none
      (ReachableBy.init 8000 1) rfl rfl)
    rfl rfl

/-- On a state with a pending connection (whatever the failure latch holds),
where for b = true the local player and the connection are present,
OnConnect(b) returns normally, raises the ConnectionResult notification exactly
once, with argument b, clears connectionPending and leaves the failure latch
equal to not b. -/
theorem OnConnect_pending_result (B : Build) (s : MassiveMessageManager) (b : Bool)
    (RandomData : Nat → Nat → Buffer) (hp : s.connectionPending = true)
    (hpre : b = true → s.localPlayer.isSome = true ∧ s.connection.isSome = true) :
    (s.OnConnect B b RandomData).result = Except.ok () ∧
      (s.OnConnect B b RandomData).effects.filter Effect.isOnConnection =
        [Effect.onConnection b] ∧
      (s.OnConnect B b RandomData).state.connectionPending = false ∧
      (s.OnConnect B b RandomData).state.connectionFailed = !b := by
  cases b with
  | false =>
    simp [MassiveMessageManager.OnConnect, hp, Outcome.ok, Effect.isOnConnection, List.filter]
  | true =>
    obtain ⟨hl, hc⟩ := hpre rfl
    obtain ⟨lp, hlp⟩ := Option.isSome_iff_exists.mp hl
    obtain ⟨c, hcc⟩ := Option.isSome_iff_exists.mp hc
    simp [MassiveMessageManager.OnConnect, hp, hlp, hcc, Outcome.ok, Effect.isOnConnection,
      List.filter]

/-- C13: with a connection pending and the connection object present,
CancelPendingConnection makes exactly one call, Close on the connection,
clears connectionPending and the failure latch, changes no other field and
returns normally; afterwards OnConnect is ignored for either flag and
ConnectionFailed returns false. -/
theorem CancelPendingConnection_pending (B : Build) (s : MassiveMessageManager)
    (c : TcpConnection) (b : Bool) (RandomData : Nat → Nat → Buffer)
    (hp : s.connectionPending = true) (hc : s.connection = some c) :
    s.CancelPendingConnection.effects = [Effect.connectionClose] ∧
      s.CancelPendingConnection.state =
        { s with connectionFailed := false, connectionPending := false } ∧
      s.CancelPendingConnection.result = Except.ok () ∧
      (s.CancelPendingConnection.state.OnConnect B b RandomData).state =
        s.CancelPendingConnection.state ∧
      (s.CancelPendingConnection.state.OnConnect B b RandomData).effects = [] ∧
      s.CancelPendingConnection.state.ConnectionFailed.result = Except.ok false := by
  simp [MassiveMessageManager.CancelPendingConnection, MassiveMessageManager.OnConnect,
    MassiveMessageManager.ConnectionFailed, hp, hc, Outcome.ok]

/-- Witness of C13: the sample client cancels its attempt with one Close, and
a late OnConnect(false) then raises nothing. -/
theorem CancelPendingConnection_pending_witness :
    samplePending.connectionPending = true ∧
      samplePending.CancelPendingConnection.effects = [Effect.connectionClose] ∧
      (samplePending.CancelPendingConnection.state.OnConnect sampleBuild false
        zeroData).effects = [] :=
  have h := CancelPendingConnection_pending sampleBuild samplePending TcpConnection.handle
    false zeroData rfl rfl
  ⟨rfl, h.1, h.2.2.2.2.1⟩

/-- C14: in a build with a local player compiled in, on every manager whose
local player is present with a key k that is not reserved, in either role and
whatever the registry holds, GetPlayer(k) is the local player and
SendMessageTo(k, m) makes exactly one call, ReceivePacket(m) on the local
player: no Write and no registry broadcast. -/
theorem SendMessageTo_local_key (B : Build) (s : MassiveMessageManager) (lp : Player)
    (m : Packet) (hb : B.serverMode = false) (hlp : s.localPlayer = some lp)
    (hk : B.isReserved lp.key = false) :
    s.GetPlayer lp.key = some PlayerRef.localPlayer ∧
      (s.SendMessageTo B lp.key m).effects =
        [Effect.playerReceivePacket PlayerRef.localPlayer m] ∧
      deliveriesOf s (s.SendMessageTo B lp.key m).effects =
        [Delivery.mk PlayerRef.localPlayer true m] ∧
      (s.SendMessageTo B lp.key m).effects.filter Effect.isPlayerWrite = [] ∧
      (s.SendMessageTo B lp.key m).effects.filter Effect.isBroadcast = [] := by
  obtain ⟨hkA, _, _, hkY⟩ := B.ne_of_isReserved_false lp.key hk
  have hget : s.GetPlayer lp.key = some PlayerRef.localPlayer := by
    simp [MassiveMessageManager.GetPlayer, hlp, Player.GetKey]
  simp [MassiveMessageManager.SendMessageTo, MassiveMessageManager.sendResolved,
    MassiveMessageManager.sendBroadcast, Outcome.ok, hget, hb, hkA, hkY, deliveriesOf,
    Effect.deliveries, Effect.isPlayerWrite, Effect.isBroadcast, List.filter]

/-- Witness of C14: on the sample host whose registry also holds a member
with key 5, a packet for key 5 is received by the local player and by nobody
else. -/
theorem SendMessageTo_local_key_witness :
    sampleBuild.serverMode = false ∧
      (sampleHostSameKey.SendMessageTo sampleBuild 5 samplePacket).effects =
        [Effect.playerReceivePacket PlayerRef.localPlayer samplePacket] :=
  ⟨rfl, (SendMessageTo_local_key sampleBuild sampleHostSameKey (Player.new 5).OnSynchronize
    samplePacket rfl rfl rfl).2.1⟩

/-- C15: on a manager without registry (a client session; the role flag
itself plays no part) whose local player has a key that is not reserved, hence
not kPlayerAll, SendMessageAll(m) and SendMessageTo(kPlayerAll, m) make the same
single call, ReceivePacket(m) on the local player, with no Write and no
broadcast; and SendMessageTo(kPlayerSynchronized, m) makes no call, so nothing
is delivered. -/
theorem SendMessageTo_client_broadcast_keys (B : Build) (s : MassiveMessageManager)
    (lp : Player) (m : Packet) (hd : B.ReservedDistinct)
    (hgs : s.gameServer = none) (hlp : s.localPlayer = some lp)
    (hk : B.isReserved lp.key = false) :
    (s.SendMessageAll B m).effects = (s.SendMessageTo B B.kPlayerAll m).effects ∧
      (s.SendMessageTo B B.kPlayerAll m).effects =
        [Effect.playerReceivePacket PlayerRef.localPlayer m] ∧
      (s.SendMessageTo B B.kPlayerAll m).effects.filter Effect.isPlayerWrite = [] ∧
      (s.SendMessageTo B B.kPlayerAll m).effects.filter Effect.isBroadcast = [] ∧
      deliveriesOf s (s.SendMessageTo B B.kPlayerAll m).effects =
        [Delivery.mk PlayerRef.localPlayer true m] ∧
      (s.SendMessageTo B B.kPlayerSynchronized m).effects = [] ∧
      deliveriesOf s (s.SendMessageTo B B.kPlayerSynchronized m).effects = [] := by
  obtain ⟨hAS, hAV, hAY, _, hSY, hVY⟩ := hd
  obtain ⟨hkA, _, _, hkY⟩ := B.ne_of_isReserved_false lp.key hk
  have hall : s.GetPlayer B.kPlayerAll = none := by
    simp [MassiveMessageManager.GetPlayer, hlp, hgs, Player.GetKey, hkA]
  have hsync : s.GetPlayer B.kPlayerSynchronized = none := by
    simp [MassiveMessageManager.GetPlayer, hlp, hgs, Player.GetKey, hkY]
  have e1 : (s.SendMessageTo B B.kPlayerAll m).effects =
      [Effect.playerReceivePacket PlayerRef.localPlayer m] := by
    simp [MassiveMessageManager.SendMessageTo, MassiveMessageManager.sendResolved,
      MassiveMessageManager.sendBroadcast, Outcome.ok, hall, hlp, hgs, hAS, hAV]
  have e2 : (s.SendMessageTo B B.kPlayerSynchronized m).effects = [] := by
    simp [MassiveMessageManager.SendMessageTo, MassiveMessageManager.sendResolved,
      MassiveMessageManager.sendBroadcast, Outcome.ok, hsync, hlp, hgs, Ne.symm hAY,
      Ne.symm hSY, Ne.symm hVY]
  refine ⟨rfl, e1, ?_, ?_, ?_, e2, ?_⟩
  · rw [e1]; rfl
  · rw [e1]; rfl
  · rw [e1]; rfl
  · rw [e2]; rfl

/-- Witness of C15: the sample client, whose local player has key 5, receives
its own broadcast and drops a packet for kPlayerSynchronized. -/
theorem SendMessageTo_client_broadcast_keys_witness :
    samplePending.gameServer = none ∧
      (samplePending.SendMessageAll sampleBuild samplePacket).effects =
        [Effect.playerReceivePacket PlayerRef.localPlayer samplePacket] ∧
      (samplePending.SendMessageTo sampleBuild sampleBuild.kPlayerSynchronized
        samplePacket).effects = [] :=
  have h := SendMessageTo_client_broadcast_keys sampleBuild samplePending (Player.new 5)
    samplePacket (by decide) rfl rfl rfl
  ⟨rfl, h.1.trans h.2.1, h.2.2.2.2.2.1⟩

/-- C16, as stated, fails: on the sample client OnConnect(true) attaches the
cipher to the local player (second effect) before it writes the handshake
packet (third effect). -/
theorem OnConnect_order_counterexample :
    samplePending.connectionPending = true ∧
      (samplePending.OnConnect sampleBuild true zeroData).effects.findIdx
          Effect.isPlayerSetCipher = 1 ∧
      (samplePending.OnConnect sampleBuild true zeroData).effects.findIdx
          Effect.isPlayerWrite = 2 ∧
      ¬ ((samplePending.OnConnect sampleBuild true zeroData).effects.findIdx
            Effect.isPlayerWrite <
          (samplePending.OnConnect sampleBuild true zeroData).effects.findIdx
            Effect.isPlayerSetCipher) := by
  refine ⟨rfl, rfl, rfl, by decide⟩

/-- C16, amended: on a successful completion (OnConnect(true) while pending,
local player and connection present) the effects are, in this order:
SetConnection on the local player, SetCipher on the local player, Write of the
handshake packet on the local player, the log line, Start on the connection,
the ConnectionResult notification.  So the handshake packet is the first and
only packet written, the read loop starts after that write, and the cipher is
attached before it. -/
theorem OnConnect_order (B : Build) (s : MassiveMessageManager) (lp : Player)
    (c : TcpConnection) (RandomData : Nat → Nat → Buffer)
    (hp : s.connectionPending = true) (hlp : s.localPlayer = some lp)
    (hc : s.connection = some c) :
    (s.OnConnect B true RandomData).effects =
        [Effect.playerSetConnection (some c),
          Effect.playerSetCipher (handshakeCipher RandomData),
          Effect.playerWrite PlayerRef.localPlayer (handshakePacket B s RandomData),
          Effect.logDebug ("MassiveMessageManager : Successfully connected to " ++
            s.address ++ ":" ++ toString s.port),
          Effect.connectionStart, Effect.onConnection true] ∧
      (s.OnConnect B true RandomData).effects.filter Effect.isPlayerWrite =
        [Effect.playerWrite PlayerRef.localPlayer (handshakePacket B s RandomData)] ∧
      (s.OnConnect B true RandomData).effects.findIdx Effect.isPlayerSetCipher = 1 ∧
      (s.OnConnect B true RandomData).effects.findIdx Effect.isPlayerWrite = 2 ∧
      (s.OnConnect B true RandomData).effects.findIdx Effect.isConnectionStart = 4 := by
  have h : (s.OnConnect B true RandomData).effects =
      [Effect.playerSetConnection (some c),
        Effect.playerSetCipher (handshakeCipher RandomData),
        Effect.playerWrite PlayerRef.localPlayer (handshakePacket B s RandomData),
        Effect.logDebug ("MassiveMessageManager : Successfully connected to " ++
          s.address ++ ":" ++ toString s.port),
        Effect.connectionStart, Effect.onConnection true] := by
    simp [MassiveMessageManager.OnConnect, MassiveMessageManager.GetVersion, hp, hlp, hc,
      Outcome.ok, handshakeCipher, handshakePacket]
  rw [h]
  exact ⟨rfl, rfl, rfl, rfl, rfl⟩

/-- Witness of C16 as amended: on the sample client the third effect of
OnConnect(true) is the write of the handshake packet and the fifth is Start. -/
theorem OnConnect_order_witness :
    samplePending.connectionPending = true ∧
      (samplePending.OnConnect sampleBuild true zeroData).effects.findIdx
          Effect.isPlayerWrite = 2 ∧
      (samplePending.OnConnect sampleBuild true zeroData).effects.findIdx
          Effect.isConnectionStart = 4 :=
  have h := OnConnect_order sampleBuild samplePending (Player.new 5) TcpConnection.handle
    zeroData rfl rfl rfl
  ⟨rfl, h.2.2.2.1, h.2.2.2.2⟩

/-- Induction over the reachable states: a property of every freshly
constructed manager that every allowed, normally returning operation preserves
holds in every reachable state. -/
theorem reachableBy_invariant (B : Build) (allowed : MassiveMessageManager → Op → Bool)
    (P : MassiveMessageManager → Prop)
    (hinit : ∀ port version, P (MassiveMessageManager.init port version))
    (hstep : ∀ s op v, P s → allowed s op = true → (step B s op).result = Except.ok v →
      P (step B s op).state) :
    ∀ s, ReachableBy B allowed s → P s := by
  intro s h
  induction h with
  | init port version => exact hinit port version
  | step s op v _ ha hr ih => exact hstep s op v ih ha hr

/-- The state a sequence of allowed, normally returning operations leaves is
reachable when the state it starts from is. -/
theorem reachableBy_runState (B : Build) (allowed : MassiveMessageManager → Op → Bool)
    (ops : List Op) :
    ∀ s, ReachableBy B allowed s → allRun B allowed s ops = true →
      ReachableBy B allowed (runState B s ops) := by
  induction ops with
  | nil => intro s h _; exact h
  | cons op rest ih =>
    intro s h hall
    simp only [allRun, Bool.and_eq_true] at hall
    obtain ⟨ha, hrest⟩ := hall
    cases hr : (step B s op).result with
    | error f => simp [hr] at hrest
    | ok v =>
      simp only [hr] at hrest
      have hnext := ReachableBy.step s op v h ha hr
      have hrs : runState B s (op :: rest) = runState B (step B s op).state rest := by
        simp [runState, hr]
      rw [hrs]
      exact ih _ hnext hrest

/-- What BeginMultiplayer leaves when a registry constructor is set: it
returns normally, stores the role, leaves the failure latch alone, and either
creates the registry (host) or creates the connection and marks it pending
(client); the other of the two is left as it was. -/
theorem BeginMultiplayer_fields (B : Build) (s : MassiveMessageManager) (pHost : Bool)
    (rd : Nat) (gom : GOMServerConstructor) (hg : s.gomConstructor = some gom) :
    (s.BeginMultiplayer B pHost rd).result = Except.ok () ∧
      (s.BeginMultiplayer B pHost rd).state.host = pHost ∧
      (s.BeginMultiplayer B pHost rd).state.connectionFailed = s.connectionFailed ∧
      (s.BeginMultiplayer B pHost rd).state.connectionPending =
        (if pHost then s.connectionPending else true) ∧
      (s.BeginMultiplayer B pHost rd).state.connection =
        (if pHost then s.connection else some TcpConnection.handle) ∧
      (s.BeginMultiplayer B pHost rd).state.gameServer.isSome =
        (if pHost then true else s.gameServer.isSome) ∧
      (s.BeginMultiplayer B pHost rd).state.localPlayer.isSome =
        (if B.serverMode then s.localPlayer.isSome else true) := by
  cases pHost <;> cases hm : B.serverMode <;>
    simp [MassiveMessageManager.BeginMultiplayer, MassiveMessageManager.Connect, hg, hm,
      Outcome.ok]

/-- BeginMultiplayer that returns normally had a registry constructor set. -/
theorem BeginMultiplayer_ok_gomConstructor (B : Build) (s : MassiveMessageManager)
    (pHost : Bool) (rd : Nat) (v : Option Bool)
    (h : (step B s (Op.BeginMultiplayer pHost rd)).result = Except.ok v) :
    ∃ gom, s.gomConstructor = some gom := by
  cases hg : s.gomConstructor with
  | some gom => exact ⟨gom, rfl⟩
  | none =>
    simp [step, Outcome.erase, MassiveMessageManager.BeginMultiplayer, hg, Outcome.fault,
      Except.map] at h

/-- What every public operation other than BeginMultiplayer leaves alone: the
connection object, the role, the presence of the registry and of the local
player; it never sets the pending flag, and it never leaves the pending flag
and the failure latch both set unless the latch was set before. -/
theorem step_frame (B : Build) (s : MassiveMessageManager) (op : Op)
    (hop : ∀ pHost rd, op ≠ Op.BeginMultiplayer pHost rd) :
    (step B s op).state.connection = s.connection ∧
      (step B s op).state.host = s.host ∧
      (step B s op).state.gameServer.isSome = s.gameServer.isSome ∧
      (step B s op).state.localPlayer.isSome = s.localPlayer.isSome ∧
      ((step B s op).state.connectionPending = true → s.connectionPending = true) ∧
      ((step B s op).state.connectionPending = true →
        (step B s op).state.connectionFailed = true → s.connectionFailed = true) := by
  cases op with
  | BeginMultiplayer pHost rd => exact absurd rfl (hop pHost rd)
  | SetPort p =>
    cases hp : s.connectionPending <;>
      simp [step, Outcome.ok, MassiveMessageManager.SetPort, hp]
  | SetAddress a =>
    cases hp : s.connectionPending <;>
      simp [step, Outcome.ok, MassiveMessageManager.SetAddress, hp]
  | SetVersion v => simp [step, Outcome.ok, MassiveMessageManager.SetVersion]
  | SetPlayerConstructor c =>
    simp [step, Outcome.ok, MassiveMessageManager.SetPlayerConstructor]
  | SetGOMServerConstructor c =>
    simp [step, Outcome.ok, MassiveMessageManager.SetGOMServerConstructor]
  | OnConnect b rnd =>
    cases hp : s.connectionPending <;> cases b <;> cases hl : s.localPlayer <;>
      cases hc : s.connection <;>
      simp [step, Outcome.erase, Outcome.ok, Outcome.fault, MassiveMessageManager.OnConnect,
        hp, hl, hc]
  | Update su pu =>
    simp [step, Outcome.erase, Outcome.ok, MassiveMessageManager.Update]
  | SendMessageTo k m =>
    simp [step, Outcome.erase, Outcome.ok, MassiveMessageManager.SendMessageTo]
  | SendMessageAll m =>
    simp [step, Outcome.erase, Outcome.ok, MassiveMessageManager.SendMessageAll,
      MassiveMessageManager.SendMessageTo]
  | ConnectionFailed =>
    cases hf : s.connectionFailed <;>
      simp [step, Outcome.erase, Outcome.ok, MassiveMessageManager.ConnectionFailed, hf]
  | CancelPendingConnection =>
    cases hp : s.connectionPending <;> cases hc : s.connection <;>
      simp [step, Outcome.erase, Outcome.ok, Outcome.fault,
        MassiveMessageManager.CancelPendingConnection, hp, hc]

/-- An operation is a BeginMultiplayer call or it is not. -/
theorem Op.beginMultiplayer_or (op : Op) :
    (∃ pHost rd, op = Op.BeginMultiplayer pHost rd) ∨
      ∀ pHost rd, op ≠ Op.BeginMultiplayer pHost rd := by
  cases op <;> simp

/-- In every reachable state a pending connection has its connection object. -/
theorem reachable_pending_connection (B : Build) (allowed : MassiveMessageManager → Op → Bool)
    (s : MassiveMessageManager) (h : ReachableBy B allowed s) :
    s.connectionPending = true → s.connection.isSome = true := by
  refine reachableBy_invariant B allowed
    (fun s => s.connectionPending = true → s.connection.isSome = true) ?_ ?_ s h
  · intro port version hp
    simp [MassiveMessageManager.init] at hp
  · intro s op v ih _ hr
    rcases op.beginMultiplayer_or with ⟨pHost, rd, rfl⟩ | hop
    · obtain ⟨gom, hg⟩ := BeginMultiplayer_ok_gomConstructor B s pHost rd v hr
      obtain ⟨_, _, _, hpend, hconn, _, _⟩ := BeginMultiplayer_fields B s pHost rd gom hg
      show (s.BeginMultiplayer B pHost rd).state.connectionPending = true →
        (s.BeginMultiplayer B pHost rd).state.connection.isSome = true
      rw [hpend, hconn]
      cases pHost
      · simp
      · simpa using ih
    · obtain ⟨hconn, _, _, _, hpend, _⟩ := step_frame B s op hop
      intro hp
      rw [hconn]
      exact ih (hpend hp)

/-- In every state reachable without starting a client attempt while the
failure latch is set, the pending flag and the failure latch are not both set. -/
theorem reachable_not_pending_and_failed (B : Build) (s : MassiveMessageManager)
    (h : ReachableBy B latchClearAtConnect s) :
    ¬ (s.connectionPending = true ∧ s.connectionFailed = true) := by
  refine reachableBy_invariant B latchClearAtConnect
    (fun s => ¬ (s.connectionPending = true ∧ s.connectionFailed = true)) ?_ ?_ s h
  · intro port version
    simp [MassiveMessageManager.init]
  · intro s op v ih ha hr
    rcases op.beginMultiplayer_or with ⟨pHost, rd, rfl⟩ | hop
    · obtain ⟨gom, hg⟩ := BeginMultiplayer_ok_gomConstructor B s pHost rd v hr
      obtain ⟨_, _, hfail, hpend, _, _, _⟩ := BeginMultiplayer_fields B s pHost rd gom hg
      show ¬ ((s.BeginMultiplayer B pHost rd).state.connectionPending = true ∧
        (s.BeginMultiplayer B pHost rd).state.connectionFailed = true)
      rw [hpend, hfail]
      cases pHost
      · have hclear : s.connectionFailed = false := by
          simpa [latchClearAtConnect] using ha
        simp [hclear]
      · simpa using ih
    · obtain ⟨_, _, _, _, hpend, hfail⟩ := step_frame B s op hop
      rintro ⟨hp, hf⟩
      exact ih ⟨hpend hp, hfail hp hf⟩

/-- In every state reachable without starting a client session on a manager
that holds a registry, the registry is present only in the host role. -/
theorem reachable_registry_host (B : Build) (s : MassiveMessageManager)
    (h : ReachableBy B noRegistryAtClientStart s) :
    s.gameServer.isSome = true → s.host = true := by
  refine reachableBy_invariant B noRegistryAtClientStart
    (fun s => s.gameServer.isSome = true → s.host = true) ?_ ?_ s h
  · intro port version
    simp [MassiveMessageManager.init]
  · intro s op v ih ha hr
    rcases op.beginMultiplayer_or with ⟨pHost, rd, rfl⟩ | hop
    · obtain ⟨gom, hg⟩ := BeginMultiplayer_ok_gomConstructor B s pHost rd v hr
      obtain ⟨_, hhost, _, _, _, hgs, _⟩ := BeginMultiplayer_fields B s pHost rd gom hg
      show (s.BeginMultiplayer B pHost rd).state.gameServer.isSome = true →
        (s.BeginMultiplayer B pHost rd).state.host = true
      rw [hgs, hhost]
      cases pHost
      · have hnone : s.gameServer.isNone = true := by
          simpa [noRegistryAtClientStart] using ha
        cases hs : s.gameServer <;> simp_all
      · simp
    · obtain ⟨_, hhost, hgs, _, _, _⟩ := step_frame B s op hop
      rw [hgs, hhost]
      exact ih

/-- In every reachable state of the dedicated-server build there is no local
player; in every reachable state of the build with a local player, a pending
connection has its local player. -/
theorem reachable_localPlayer (B : Build) (allowed : MassiveMessageManager → Op → Bool)
    (s : MassiveMessageManager) (h : ReachableBy B allowed s) :
    (B.serverMode = true → s.localPlayer.isSome = false) ∧
      (B.serverMode = false → s.connectionPending = true → s.localPlayer.isSome = true) := by
  refine reachableBy_invariant B allowed
    (fun s => (B.serverMode = true → s.localPlayer.isSome = false) ∧
      (B.serverMode = false → s.connectionPending = true → s.localPlayer.isSome = true))
    ?_ ?_ s h
  · intro port version
    simp [MassiveMessageManager.init]
  · intro s op v ih _ hr
    rcases op.beginMultiplayer_or with ⟨pHost, rd, rfl⟩ | hop
    · obtain ⟨gom, hg⟩ := BeginMultiplayer_ok_gomConstructor B s pHost rd v hr
      obtain ⟨_, _, _, _, _, _, hlp⟩ := BeginMultiplayer_fields B s pHost rd gom hg
      show (B.serverMode = true → (s.BeginMultiplayer B pHost rd).state.localPlayer.isSome
          = false) ∧
        (B.serverMode = false → (s.BeginMultiplayer B pHost rd).state.connectionPending = true →
          (s.BeginMultiplayer B pHost rd).state.localPlayer.isSome = true)
      rw [hlp]
      constructor
      · intro hm; simpa [hm] using ih.1 hm
      · intro hm _; simp [hm]
    · obtain ⟨_, _, _, hlp, hpend, _⟩ := step_frame B s op hop
      rw [hlp]
      exact ⟨ih.1, fun hm hp => ih.2 hm (hpend hp)⟩

/-- C17, as stated, fails: a client that fails to connect and starts a new
attempt without polling ConnectionFailed reaches, by public operations only, a
state with the pending flag and the failure latch both set. -/
theorem flags_exclusive_counterexample :
    Reachable sampleBuild
        (runState sampleBuild (MassiveMessageManager.init 8000 1) sampleRetryOps) ∧
      (runState sampleBuild (MassiveMessageManager.init 8000 1)
        sampleRetryOps).connectionPending = true ∧
      (runState sampleBuild (MassiveMessageManager.init 8000 1)
        sampleRetryOps).connectionFailed = true :=
  ⟨reachableBy_runState sampleBuild (fun _ _ => true) sampleRetryOps
      (MassiveMessageManager.init 8000 1) (ReachableBy.init 8000 1) rfl,
    rfl, rfl⟩

/-- C17, amended: in every state reachable from a freshly constructed manager
by public operations in which BeginMultiplayer(false) is never called while the
failure latch is set, the pending flag and the failure latch are not both set.
BeginMultiplayer(false) itself leaves the latch as it is: called with a
registry constructor and with the latch set, it returns with both flags set. -/
theorem flags_exclusive_when_latch_clear (B : Build) (s : MassiveMessageManager) :
    (ReachableBy B latchClearAtConnect s →
        ¬ (s.connectionPending = true ∧ s.connectionFailed = true)) ∧
      (∀ gom rd, s.gomConstructor = some gom → s.connectionFailed = true →
        (s.BeginMultiplayer B false rd).result = Except.ok () ∧
          (s.BeginMultiplayer B false rd).state.connectionPending = true ∧
          (s.BeginMultiplayer B false rd).state.connectionFailed = true) := by
  refine ⟨reachable_not_pending_and_failed B s, ?_⟩
  intro gom rd hg hf
  obtain ⟨hok, _, hfail, hpend, _, _, _⟩ := BeginMultiplayer_fields B s false rd gom hg
  exact ⟨hok, by simpa using hpend, by rw [hfail, hf]⟩

/-- Witness of C17 as amended: a client that fails, polls the failure and
tries again is pending with the latch clear. -/
theorem flags_exclusive_when_latch_clear_witness :
    (runState sampleBuild (MassiveMessageManager.init 8000 1)
        samplePolledRetryOps).connectionPending = true ∧
      ¬ ((runState sampleBuild (MassiveMessageManager.init 8000 1)
            samplePolledRetryOps).connectionPending = true ∧
          (runState sampleBuild (MassiveMessageManager.init 8000 1)
            samplePolledRetryOps).connectionFailed = true) :=
  ⟨rfl, (flags_exclusive_when_latch_clear sampleBuild
      (runState sampleBuild (MassiveMessageManager.init 8000 1) samplePolledRetryOps)).1
    (reachableBy_runState sampleBuild latchClearAtConnect samplePolledRetryOps
      (MassiveMessageManager.init 8000 1) (ReachableBy.init 8000 1) rfl)⟩

/-- C18 on the code: after BeginMultiplayer(true) followed by
BeginMultiplayer(false) the manager is reachable by public operations, is in
the client role, and still holds the registry of the host session;
SendMessageTo(kPlayerAll, m) and SendMessageTo(kPlayerSynchronized, m) then
call the registry broadcasts. -/
theorem BeginMultiplayer_client_keeps_registry :
    Reachable sampleBuild
        (runState sampleBuild (MassiveMessageManager.init 8000 1) sampleHostThenClientOps) ∧
      (runState sampleBuild (MassiveMessageManager.init 8000 1)
        sampleHostThenClientOps).host = false ∧
      (runState sampleBuild (MassiveMessageManager.init 8000 1)
        sampleHostThenClientOps).gameServer.isSome = true ∧
      ((runState sampleBuild (MassiveMessageManager.init 8000 1)
          sampleHostThenClientOps).SendMessageTo sampleBuild sampleBuild.kPlayerAll
          samplePacket).effects = [Effect.serverSendMessageAll samplePacket] ∧
      ((runState sampleBuild (MassiveMessageManager.init 8000 1)
          sampleHostThenClientOps).SendMessageTo sampleBuild sampleBuild.kPlayerSynchronized
          samplePacket).effects = [Effect.serverSendMessageAllSynchronized samplePacket] :=
  ⟨reachableBy_runState sampleBuild (fun _ _ => true) sampleHostThenClientOps
      (MassiveMessageManager.init 8000 1) (ReachableBy.init 8000 1) rfl,
    rfl, rfl, rfl, rfl⟩

/-- C19: in every state reachable from a freshly constructed manager by the
public operations (Connect being called from BeginMultiplayer only), a pending
connection has its connection object; so CancelPendingConnection returns
normally there and OnConnect, for either flag, never stops at a dereference of
an absent connection. -/
theorem pending_has_connection (B : Build) (s : MassiveMessageManager)
    (h : Reachable B s) :
    (s.connectionPending = true → s.connection.isSome = true) ∧
      s.CancelPendingConnection.result = Except.ok () ∧
      ∀ (b : Bool) (RandomData : Nat → Nat → Buffer),
        (s.OnConnect B b RandomData).result ≠ Except.error Fault.nullConnection := by
  have hinv := reachable_pending_connection B (fun _ _ => true) s h
  refine ⟨hinv, ?_, ?_⟩
  · cases hp : s.connectionPending with
    | false => simp [MassiveMessageManager.CancelPendingConnection, hp, Outcome.ok]
    | true =>
      obtain ⟨c, hc⟩ := Option.isSome_iff_exists.mp (hinv hp)
      simp [MassiveMessageManager.CancelPendingConnection, hp, hc, Outcome.ok]
  · intro b RandomData
    cases hp : s.connectionPending with
    | false => simp [MassiveMessageManager.OnConnect, hp, Outcome.ok]
    | true =>
      obtain ⟨c, hc⟩ := Option.isSome_iff_exists.mp (hinv hp)
      cases b <;> cases hl : s.localPlayer <;>
        simp [MassiveMessageManager.OnConnect, hp, hc, hl, Outcome.ok, Outcome.fault]

/-- Witness of C19: the client session started on a fresh manager is pending,
holds its connection object, and can be cancelled. -/
theorem pending_has_connection_witness :
    (runState sampleBuild (MassiveMessageManager.init 8000 1)
        sampleClientStartOps).connectionPending = true ∧
      (runState sampleBuild (MassiveMessageManager.init 8000 1)
        sampleClientStartOps).connection.isSome = true ∧
      (runState sampleBuild (MassiveMessageManager.init 8000 1)
        sampleClientStartOps).CancelPendingConnection.result = Except.ok () :=
  have h := pending_has_connection sampleBuild
    (runState sampleBuild (MassiveMessageManager.init 8000 1) sampleClientStartOps)
    (reachableBy_runState sampleBuild (fun _ _ => true) sampleClientStartOps
      (MassiveMessageManager.init 8000 1) (ReachableBy.init 8000 1) rfl)
  ⟨rfl, h.1 rfl, h.2.1⟩

/-- In the build with a local player, on every reachable state with a pending
connection and for either flag b, OnConnect(b) returns normally, raises the
ConnectionResult notification exactly once, with argument b, clears
connectionPending and leaves the failure latch equal to not b. -/
theorem OnConnect_pending_result_reachable (B : Build) (s : MassiveMessageManager)
    (b : Bool) (RandomData : Nat → Nat → Buffer) (hb : B.serverMode = false)
    (h : Reachable B s) (hp : s.connectionPending = true) :
    (s.OnConnect B b RandomData).result = Except.ok () ∧
      (s.OnConnect B b RandomData).effects.filter Effect.isOnConnection =
        [Effect.onConnection b] ∧
      (s.OnConnect B b RandomData).state.connectionPending = false ∧
      (s.OnConnect B b RandomData).state.connectionFailed = !b :=
  OnConnect_pending_result B s b RandomData hp
    (fun _ => ⟨(reachable_localPlayer B (fun _ _ => true) s h).2 hb hp,
      reachable_pending_connection B (fun _ _ => true) s h hp⟩)

end Game
